import Mathlib

/-!
Verification development for the answer-sheet evaluator repository.

The repository contains three near-identical Streamlit applications
(streamlit_answer_evaluator.py, called v1 below, streamlit_answer_evaluator_v2.py
and streamlit_answer_evaluator_v3.py).  The only mechanism with design substance
is the session-scoped result cache: a Python dict in `st.session_state`
keyed by `get_file_hash(file_data, evaluation_mode, custom_criteria)`,
the SHA-256 hex digest of the concatenation
`file_data + evaluation_mode.encode() + custom_criteria.encode()`.

Modelling choices:
* Python `bytes` values are `List Nat`.
* `str.encode()` (UTF-8) is an injective map from strings to byte sequences,
  so the evaluation-mode identifier and the criteria text are carried as
  their encoded byte sequences throughout; distinctness of the strings is
  exactly distinctness of the byte sequences.
* The SHA-256 hex digest is abstracted as a function parameter `digest`;
  claims about key distinctness model it as injective, as the claims state.
* The session cache dict is modelled observationally by an association list
  with Python-dict semantics: assignment replaces in place or appends,
  lookup returns the first (unique) binding.
* The remote API call and the JSON/PDF libraries are external collaborators:
  the remote call outcome (response text or raised exception), the
  `parse_json_response` function and the `create_marked_pdf` function are
  parameters of the interaction step.
-/

namespace OCRCache

/-- Byte sequences: Python `bytes` values, one natural number per byte. -/
abbrev Bytes : Type := List Nat

/-- Version 1 `get_file_hash` (streamlit_answer_evaluator.py, lines 28-31):
`content = file_data + evaluation_mode.encode() + custom_criteria.encode()`;
`return hashlib.sha256(content).hexdigest()`.  The digest is the parameter. -/
def get_file_hash {κ : Type} (digest : Bytes → κ)
    (file_data evaluation_mode custom_criteria : Bytes) : κ :=
  digest (file_data ++ evaluation_mode ++ custom_criteria)

/-- Version 2 `get_file_hash` (streamlit_answer_evaluator_v2.py, lines 38-41),
textually identical to version 1. -/
def get_file_hash_v2 {κ : Type} (digest : Bytes → κ)
    (file_data evaluation_mode custom_criteria : Bytes) : κ :=
  digest (file_data ++ evaluation_mode ++ custom_criteria)

/-- Version 3 `get_file_hash` (streamlit_answer_evaluator_v3.py, lines 38-41),
textually identical to version 1. -/
def get_file_hash_v3 {κ : Type} (digest : Bytes → κ)
    (file_data evaluation_mode custom_criteria : Bytes) : κ :=
  digest (file_data ++ evaluation_mode ++ custom_criteria)

/-- Python dict lookup (`d[k]`, `k in d`), observationally: the first binding
of the key, `none` when the key is absent. -/
def mapLookup {κ ε : Type} [DecidableEq κ] : List (κ × ε) → κ → Option ε
  | [], _ => none
  | (k0, e0) :: s, k => if k0 = k then some e0 else mapLookup s k

/-- Python dict assignment (`d[k] = e`): replaces the binding in place when
the key is present, appends a fresh binding otherwise. -/
def mapStore {κ ε : Type} [DecidableEq κ] : List (κ × ε) → κ → ε → List (κ × ε)
  | [], k, e => [(k, e)]
  | (k0, e0) :: s, k, e => if k0 = k then (k, e) :: s else (k0, e0) :: mapStore s k e

/-- Values stored in a cache-entry dict: text, bytes, or a parsed JSON record. -/
inductive EVal : Type where
  | vstr : String → EVal
  | vbytes : Bytes → EVal
  | vjson : List (String × EVal) → EVal

/-- A cache entry: a Python dict with string keys, as built by the store sites. -/
abbrev Entry : Type := List (String × EVal)

/-- Parsed JSON object returned by `parse_json_response` (v2/v3). -/
abbrev EvalData : Type := List (String × EVal)

/-- The session cache store: `st.session_state` dict from keys to entries. -/
abbrev Store (κ : Type) : Type := List (κ × Entry)

/-- Version 1 cache entry (streamlit_answer_evaluator.py, lines 327-331):
the dict with keys `evaluation`, `filename`, `mode_used`.  The mode identifier
is carried as its encoded byte sequence. -/
def entryV1 (evaluation : String) (filename : String) (mode_used : Bytes) : Entry :=
  [("evaluation", EVal.vstr evaluation),
   ("filename", EVal.vstr filename),
   ("mode_used", EVal.vbytes mode_used)]

/-- Version 2 cache entry (streamlit_answer_evaluator_v2.py, lines 508-511):
the dict with keys `marked_pdf`, `filename` only. -/
def entryV2 (marked_pdf : Bytes) (filename : String) : Entry :=
  [("marked_pdf", EVal.vbytes marked_pdf),
   ("filename", EVal.vstr filename)]

/-- Version 3 cache entry (streamlit_answer_evaluator_v3.py, lines 634-638):
the dict with keys `marked_pdf`, `filename`, `eval_data`. -/
def entryV3 (marked_pdf : Bytes) (filename : String) (eval_data : EvalData) : Entry :=
  [("marked_pdf", EVal.vbytes marked_pdf),
   ("filename", EVal.vstr filename),
   ("eval_data", EVal.vjson eval_data)]

/-- A grading request as supplied by the UI: the uploaded file bytes, the
selected evaluation mode and the free-text criteria (both as their encoded
byte sequences), and the uploaded file name. -/
structure Req : Type where
  file_data : Bytes
  evaluation_mode : Bytes
  custom_criteria : Bytes
  filename : String

/-- Outcome of the remote evaluation call: the response text
(`message.content[0].text`), or a raised exception (caught by the handler). -/
inductive Outcome : Type where
  | ok : String → Outcome
  | exn : Outcome

/-- Result of one button-press interaction: the cache store afterwards, the
entry whose fields were loaded into the session display state (if any), and
whether the remote evaluation call was attempted. -/
structure StepResult (κ : Type) : Type where
  cacheAfter : Store κ
  shown : Option Entry
  remote_called : Bool

/-- Version 1 evaluate-button handler (streamlit_answer_evaluator.py,
lines 252-337): compute the key; on a hit load the cached entry without any
remote call; on a miss attempt the remote call, and only on success build the
entry, display it and store it under the key; on an exception display an error
and leave the store unchanged. -/
def evaluateV1 {κ : Type} [DecidableEq κ] (digest : Bytes → κ)
    (cache : Store κ) (r : Req) (o : Outcome) : StepResult κ :=
  let file_hash := get_file_hash digest r.file_data r.evaluation_mode r.custom_criteria
  match mapLookup cache file_hash with
  | some cached => ⟨cache, some cached, false⟩
  | none =>
    match o with
    | Outcome.ok evaluation =>
      let e := entryV1 evaluation r.filename r.evaluation_mode
      ⟨mapStore cache file_hash e, some e, true⟩
    | Outcome.exn => ⟨cache, none, true⟩

/-- Version 2 evaluate-button handler (streamlit_answer_evaluator_v2.py,
lines 440-521): as version 1, but the response text is parsed by
`parse_json_response` (parameter `parse`); only when parsing yields a record
is a marked PDF generated by `create_marked_pdf` (parameter `mkpdf`) and the
entry stored; a parse failure or exception leaves the store unchanged. -/
def evaluateV2 {κ : Type} [DecidableEq κ] (digest : Bytes → κ)
    (parse : String → Option EvalData) (mkpdf : Bytes → EvalData → Bytes → Bytes)
    (cache : Store κ) (r : Req) (o : Outcome) : StepResult κ :=
  let file_hash := get_file_hash_v2 digest r.file_data r.evaluation_mode r.custom_criteria
  match mapLookup cache file_hash with
  | some cached => ⟨cache, some cached, false⟩
  | none =>
    match o with
    | Outcome.ok response_text =>
      match parse response_text with
      | some evaluation_data =>
        let marked_pdf := mkpdf r.file_data evaluation_data r.evaluation_mode
        let e := entryV2 marked_pdf r.filename
        ⟨mapStore cache file_hash e, some e, true⟩
      | none => ⟨cache, none, true⟩
    | Outcome.exn => ⟨cache, none, true⟩

/-- Version 3 evaluate-button handler (streamlit_answer_evaluator_v3.py,
lines 565-647): as version 2, but the stored entry also carries the parsed
evaluation data. -/
def evaluateV3 {κ : Type} [DecidableEq κ] (digest : Bytes → κ)
    (parse : String → Option EvalData) (mkpdf : Bytes → EvalData → Bytes → Bytes)
    (cache : Store κ) (r : Req) (o : Outcome) : StepResult κ :=
  let file_hash := get_file_hash_v3 digest r.file_data r.evaluation_mode r.custom_criteria
  match mapLookup cache file_hash with
  | some cached => ⟨cache, some cached, false⟩
  | none =>
    match o with
    | Outcome.ok response_text =>
      match parse response_text with
      | some evaluation_data =>
        let marked_pdf := mkpdf r.file_data evaluation_data r.evaluation_mode
        let e := entryV3 marked_pdf r.filename evaluation_data
        ⟨mapStore cache file_hash e, some e, true⟩
      | none => ⟨cache, none, true⟩
    | Outcome.exn => ⟨cache, none, true⟩

/-- Clear Evaluation Cache handler (streamlit_answer_evaluator.py,
lines 208-215): the store is replaced by the empty dict. -/
def clearStore {κ : Type} (_s : Store κ) : Store κ := []

/-- Cache stores reachable in a session: the store starts empty, and each
user interaction either runs an evaluate step (`next`) or clears the store. -/
inductive ReachableStore {κ : Type} (next : Store κ → Req → Outcome → Store κ) :
    Store κ → Prop where
  | init : ReachableStore next []
  | ev : ∀ {s : Store κ} (r : Req) (o : Outcome),
      ReachableStore next s → ReachableStore next (next s r o)
  | cleared : ∀ {s : Store κ}, ReachableStore next s →
      ReachableStore next (clearStore s)

/-- The store transition of the version 1 evaluate handler. -/
def nextV1 {κ : Type} [DecidableEq κ] (digest : Bytes → κ)
    (s : Store κ) (r : Req) (o : Outcome) : Store κ :=
  (evaluateV1 digest s r o).cacheAfter

/-- The store transition of the version 2 evaluate handler. -/
def nextV2 {κ : Type} [DecidableEq κ] (digest : Bytes → κ)
    (parse : String → Option EvalData) (mkpdf : Bytes → EvalData → Bytes → Bytes)
    (s : Store κ) (r : Req) (o : Outcome) : Store κ :=
  (evaluateV2 digest parse mkpdf s r o).cacheAfter

/-- The store transition of the version 3 evaluate handler. -/
def nextV3 {κ : Type} [DecidableEq κ] (digest : Bytes → κ)
    (parse : String → Option EvalData) (mkpdf : Bytes → EvalData → Bytes → Bytes)
    (s : Store κ) (r : Req) (o : Outcome) : Store κ :=
  (evaluateV3 digest parse mkpdf s r o).cacheAfter

/-- Storing under a key and looking up that key yields the stored value. -/
theorem mapLookup_mapStore_self {κ ε : Type} [DecidableEq κ]
    (s : List (κ × ε)) (k : κ) (e : ε) :
    mapLookup (mapStore s k e) k = some e := by
  induction s with
  | nil => simp [mapStore, mapLookup]
  | cons p s ih =>
    obtain ⟨k0, e0⟩ := p
    by_cases h : k0 = k
    · simp [mapStore, h, mapLookup]
    · simp [mapStore, h, mapLookup, ih]

/-- Storing under a key leaves the binding of every other key unchanged. -/
theorem mapLookup_mapStore_ne {κ ε : Type} [DecidableEq κ]
    (s : List (κ × ε)) (k k2 : κ) (e : ε) (h : k2 ≠ k) :
    mapLookup (mapStore s k e) k2 = mapLookup s k2 := by
  induction s with
  | nil =>
    simp only [mapStore, mapLookup]
    rw [if_neg (fun hh => h hh.symm)]
  | cons p s ih =>
    obtain ⟨k0, e0⟩ := p
    by_cases h0 : k0 = k
    · subst h0
      simp only [mapStore, if_pos rfl, mapLookup]
      rw [if_neg (fun hh => h hh.symm), if_neg (fun hh => h hh.symm)]
    · simp only [mapStore, if_neg h0, mapLookup]
      by_cases h2 : k0 = k2
      · rw [if_pos h2, if_pos h2]
      · rw [if_neg h2, if_neg h2, ih]

/-- Every binding of a store after an insertion is the inserted binding or a
binding already present. -/
theorem mapLookup_mapStore_or {κ ε : Type} [DecidableEq κ]
    (s : List (κ × ε)) (k k2 : κ) (e e2 : ε)
    (h : mapLookup (mapStore s k e) k2 = some e2) :
    (k2 = k ∧ e2 = e) ∨ mapLookup s k2 = some e2 := by
  by_cases hk : k2 = k
  · subst hk
    rw [mapLookup_mapStore_self] at h
    exact Or.inl ⟨rfl, (Option.some_injective _ h).symm⟩
  · rw [mapLookup_mapStore_ne s k k2 e hk] at h
    exact Or.inr h

/-- C3: writing an entry under a key and then looking up that same key yields
exactly the entry that was written (write-then-read round trip over the
session cache mapping). -/
theorem lookup_store_roundtrip {κ : Type} [DecidableEq κ]
    (s : Store κ) (k : κ) (e : Entry) :
    mapLookup (mapStore s k e) k = some e :=
  mapLookup_mapStore_self s k e

/-- C8: inserting an entry under one key leaves the entry under every other
key unchanged and retrievable. -/
theorem lookup_store_frame {κ : Type} [DecidableEq κ]
    (s : Store κ) (k k2 : κ) (e : Entry) (h : k2 ≠ k) :
    mapLookup (mapStore s k e) k2 = mapLookup s k2 :=
  mapLookup_mapStore_ne s k k2 e h

/-- C8 witness: concrete frame instance at distinct concrete keys. -/
theorem lookup_store_frame_witness :
    mapLookup (mapStore [([1], entryV1 "r" "a.pdf" [5])] [3] (entryV1 "q" "b.pdf" [6])) [1]
      = mapLookup [([1], entryV1 "r" "a.pdf" [5])] ([1] : Bytes) :=
  lookup_store_frame [([1], entryV1 "r" "a.pdf" [5])] [3] [1]
    (entryV1 "q" "b.pdf" [6]) (by decide)

/-- C9: the clear operation drops all entries and yields the empty store, so
every lookup in the cleared store is absent. -/
theorem clear_empties_store {κ : Type} [DecidableEq κ] (s : Store κ) (k : κ) :
    clearStore s = ([] : Store κ) ∧ mapLookup (clearStore s) k = none :=
  ⟨rfl, rfl⟩

/-- C10: the key-derivation functions of the three application versions are
extensionally equal: on every input triple all three return the same key. -/
theorem get_file_hash_versions_agree {κ : Type} (digest : Bytes → κ)
    (d m c : Bytes) :
    get_file_hash digest d m c = get_file_hash_v2 digest d m c ∧
    get_file_hash_v2 digest d m c = get_file_hash_v3 digest d m c ∧
    get_file_hash digest d m c = get_file_hash_v3 digest d m c :=
  ⟨rfl, rfl, rfl⟩

/-- C1: the key derivation concatenates the three inputs with no separator,
so two distinct triples whose concatenations coincide receive the same key
even with an injective digest: the identity digest is injective, the triples
(0x61, empty, empty) and (empty, 0x61, empty) are distinct (file bytes `a`
versus mode string `a`), yet their keys are equal. -/
theorem get_file_hash_concat_collision :
    Function.Injective (fun b : Bytes => b) ∧
    (([97], [], []) : Bytes × Bytes × Bytes) ≠ (([], [97], []) : Bytes × Bytes × Bytes) ∧
    get_file_hash (fun b : Bytes => b) [97] [] [] =
      get_file_hash (fun b : Bytes => b) [] [97] [] :=
  ⟨fun _ _ h => h, by decide, rfl⟩

/-- C5: with the digest modeled as injective, changing only the mode
identifier, or only the criteria text, while holding the other two inputs
fixed, changes the key. -/
theorem get_file_hash_mode_criteria_sensitive {κ : Type}
    (digest : Bytes → κ) (hinj : Function.Injective digest) :
    (∀ d c m1 m2 : Bytes, m1 ≠ m2 →
      get_file_hash digest d m1 c ≠ get_file_hash digest d m2 c) ∧
    (∀ d m c1 c2 : Bytes, c1 ≠ c2 →
      get_file_hash digest d m c1 ≠ get_file_hash digest d m c2) := by
  constructor
  · intro d c m1 m2 hne heq
    simp only [get_file_hash] at heq
    exact hne (List.append_cancel_left (List.append_cancel_right (hinj heq)))
  · intro d m c1 c2 hne heq
    simp only [get_file_hash] at heq
    exact hne (List.append_cancel_left (hinj heq))

/-- C5 witness: with the identity digest, concrete distinct modes and
concrete distinct criteria yield distinct keys. -/
theorem get_file_hash_mode_criteria_sensitive_witness :
    get_file_hash (fun b : Bytes => b) [0] [1] [] ≠
      get_file_hash (fun b : Bytes => b) [0] [2] [] ∧
    get_file_hash (fun b : Bytes => b) [0] [1] [] ≠
      get_file_hash (fun b : Bytes => b) [0] [1] [3] :=
  ⟨(get_file_hash_mode_criteria_sensitive (fun b : Bytes => b)
      (fun _ _ h => h)).1 [0] [] [1] [2] (by decide),
   (get_file_hash_mode_criteria_sensitive (fun b : Bytes => b)
      (fun _ _ h => h)).2 [0] [1] [] [3] (by decide)⟩

/-- C6: key computation is total by construction (a Lean function with no
error path); whenever the digest returns fixed-length (64 hex characters)
output, so does the key derivation; and two applications to equal inputs
return the identical key (two-run determinism). -/
theorem get_file_hash_total_deterministic (digest : Bytes → String)
    (hlen : ∀ b : Bytes, (digest b).length = 64) (d m c : Bytes) :
    (get_file_hash digest d m c).length = 64 ∧
    (∀ d2 m2 c2 : Bytes, d = d2 → m = m2 → c = c2 →
      get_file_hash digest d m c = get_file_hash digest d2 m2 c2) := by
  refine ⟨hlen _, ?_⟩
  rintro d2 m2 c2 rfl rfl rfl
  rfl

/-- C6 witness: a concrete digest of constant 64-character output at a
concrete input triple. -/
theorem get_file_hash_total_deterministic_witness :
    (get_file_hash
      (fun _ : Bytes => "0000000000000000000000000000000000000000000000000000000000000000")
      [1] [2] [3]).length = 64 ∧
    get_file_hash
      (fun _ : Bytes => "0000000000000000000000000000000000000000000000000000000000000000")
      [1] [2] [3] =
    get_file_hash
      (fun _ : Bytes => "0000000000000000000000000000000000000000000000000000000000000000")
      [1] [2] [3] := by
  have h := get_file_hash_total_deterministic
    (fun _ : Bytes => "0000000000000000000000000000000000000000000000000000000000000000")
    (fun _ => rfl) [1] [2] [3]
  exact ⟨h.1, h.2 [1] [2] [3] rfl rfl rfl⟩

/-- C2: on a cache hit the interaction returns exactly the previously stored
entry, leaves the store unchanged and never invokes the remote evaluation
call; conversely the remote call is attempted only when the key is absent. -/
theorem cache_hit_skips_remote {κ : Type} [DecidableEq κ] (digest : Bytes → κ)
    (cache : Store κ) (r : Req) :
    (∀ e : Entry,
      mapLookup cache
        (get_file_hash digest r.file_data r.evaluation_mode r.custom_criteria) = some e →
      ∀ o : Outcome, evaluateV1 digest cache r o = ⟨cache, some e, false⟩) ∧
    (∀ o : Outcome, (evaluateV1 digest cache r o).remote_called = true →
      mapLookup cache
        (get_file_hash digest r.file_data r.evaluation_mode r.custom_criteria) = none) := by
  constructor
  · intro e he o
    simp [evaluateV1, he]
  · intro o hcall
    cases hm : mapLookup cache
        (get_file_hash digest r.file_data r.evaluation_mode r.custom_criteria) with
    | none => rfl
    | some e => simp [evaluateV1, hm] at hcall

/-- C2 witness: a concrete store holding the key of a concrete request; the
interaction returns the stored entry with no remote call even though the
remote outcome would have been an exception. -/
theorem cache_hit_skips_remote_witness :
    evaluateV1 (fun b : Bytes => b) [([1, 2, 3], entryV1 "R" "d.pdf" [2])]
      ⟨[1], [2], [3], "d.pdf"⟩ Outcome.exn
      = ⟨[([1, 2, 3], entryV1 "R" "d.pdf" [2])], some (entryV1 "R" "d.pdf" [2]), false⟩ :=
  (cache_hit_skips_remote (fun b : Bytes => b) [([1, 2, 3], entryV1 "R" "d.pdf" [2])]
      ⟨[1], [2], [3], "d.pdf"⟩).1 (entryV1 "R" "d.pdf" [2]) rfl Outcome.exn

/-- C4: a failed remote call (exception) or an unparseable response leaves
the cache store unchanged in every version; the store changes only on a miss
with a successful (and, in v2/v3, parseable) evaluation; and after a failed
attempt an identical request still attempts the remote call again. -/
theorem failed_evaluation_not_cached {κ : Type} [DecidableEq κ]
    (digest : Bytes → κ) (parse : String → Option EvalData)
    (mkpdf : Bytes → EvalData → Bytes → Bytes) (cache : Store κ) (r : Req) :
    ((evaluateV1 digest cache r Outcome.exn).cacheAfter = cache) ∧
    ((evaluateV2 digest parse mkpdf cache r Outcome.exn).cacheAfter = cache) ∧
    ((evaluateV3 digest parse mkpdf cache r Outcome.exn).cacheAfter = cache) ∧
    (∀ t : String, parse t = none →
      (evaluateV2 digest parse mkpdf cache r (Outcome.ok t)).cacheAfter = cache ∧
      (evaluateV3 digest parse mkpdf cache r (Outcome.ok t)).cacheAfter = cache) ∧
    (∀ o : Outcome, (evaluateV1 digest cache r o).cacheAfter ≠ cache →
      ∃ t : String, o = Outcome.ok t ∧
        mapLookup cache
          (get_file_hash digest r.file_data r.evaluation_mode r.custom_criteria) = none) ∧
    (∀ o : Outcome, (evaluateV2 digest parse mkpdf cache r o).cacheAfter ≠ cache →
      ∃ (t : String) (ed : EvalData), o = Outcome.ok t ∧ parse t = some ed ∧
        mapLookup cache
          (get_file_hash_v2 digest r.file_data r.evaluation_mode r.custom_criteria) = none) ∧
    (∀ o : Outcome, (evaluateV3 digest parse mkpdf cache r o).cacheAfter ≠ cache →
      ∃ (t : String) (ed : EvalData), o = Outcome.ok t ∧ parse t = some ed ∧
        mapLookup cache
          (get_file_hash_v3 digest r.file_data r.evaluation_mode r.custom_criteria) = none) ∧
    (mapLookup cache
        (get_file_hash digest r.file_data r.evaluation_mode r.custom_criteria) = none →
      ∀ o2 : Outcome,
        (evaluateV1 digest (evaluateV1 digest cache r Outcome.exn).cacheAfter r o2).remote_called
          = true) := by
  refine ⟨?_, ?_, ?_, ?_, ?_, ?_, ?_, ?_⟩
  · cases hm : mapLookup cache
        (get_file_hash digest r.file_data r.evaluation_mode r.custom_criteria) <;>
      simp [evaluateV1, hm]
  · cases hm : mapLookup cache
        (get_file_hash_v2 digest r.file_data r.evaluation_mode r.custom_criteria) <;>
      simp [evaluateV2, hm]
  · cases hm : mapLookup cache
        (get_file_hash_v3 digest r.file_data r.evaluation_mode r.custom_criteria) <;>
      simp [evaluateV3, hm]
  · intro t hp
    constructor
    · cases hm : mapLookup cache
          (get_file_hash_v2 digest r.file_data r.evaluation_mode r.custom_criteria) <;>
        simp [evaluateV2, hm, hp]
    · cases hm : mapLookup cache
          (get_file_hash_v3 digest r.file_data r.evaluation_mode r.custom_criteria) <;>
        simp [evaluateV3, hm, hp]
  · intro o hne
    cases hm : mapLookup cache
        (get_file_hash digest r.file_data r.evaluation_mode r.custom_criteria) with
    | some e => exact absurd (by simp [evaluateV1, hm]) hne
    | none =>
      cases o with
      | exn => exact absurd (by simp [evaluateV1, hm]) hne
      | ok t => exact ⟨t, rfl, rfl⟩
  · intro o hne
    cases hm : mapLookup cache
        (get_file_hash_v2 digest r.file_data r.evaluation_mode r.custom_criteria) with
    | some e => exact absurd (by simp [evaluateV2, hm]) hne
    | none =>
      cases o with
      | exn => exact absurd (by simp [evaluateV2, hm]) hne
      | ok t =>
        cases hp : parse t with
        | none => exact absurd (by simp [evaluateV2, hm, hp]) hne
        | some ed => exact ⟨t, ed, rfl, hp, rfl⟩
  · intro o hne
    cases hm : mapLookup cache
        (get_file_hash_v3 digest r.file_data r.evaluation_mode r.custom_criteria) with
    | some e => exact absurd (by simp [evaluateV3, hm]) hne
    | none =>
      cases o with
      | exn => exact absurd (by simp [evaluateV3, hm]) hne
      | ok t =>
        cases hp : parse t with
        | none => exact absurd (by simp [evaluateV3, hm, hp]) hne
        | some ed => exact ⟨t, ed, rfl, hp, rfl⟩
  · intro hm o2
    have hc : (evaluateV1 digest cache r Outcome.exn).cacheAfter = cache := by
      simp [evaluateV1, hm]
    rw [hc]
    cases o2 <;> simp [evaluateV1, hm]

/-- C4 witness: at a concrete request with an empty store, an exception and an
unparseable response each leave the store empty. -/
theorem failed_evaluation_not_cached_witness :
    (evaluateV1 (fun b : Bytes => b) [] ⟨[1], [2], [3], "a.pdf"⟩
        Outcome.exn).cacheAfter = [] ∧
    (evaluateV2 (fun b : Bytes => b) (fun _ => none) (fun d _ _ => d) []
        ⟨[1], [2], [3], "a.pdf"⟩ (Outcome.ok "x")).cacheAfter = [] :=
  ⟨(failed_evaluation_not_cached (fun b : Bytes => b) (fun _ => none)
      (fun d _ _ => d) [] ⟨[1], [2], [3], "a.pdf"⟩).1,
   ((failed_evaluation_not_cached (fun b : Bytes => b) (fun _ => none)
      (fun d _ _ => d) [] ⟨[1], [2], [3], "a.pdf"⟩).2.2.2.1 "x" rfl).1⟩

/-- Characterization of a version 1 evaluate step: the store is unchanged, or
(on a miss with a successful evaluation) exactly one version 1 entry is
inserted under the computed key. -/
theorem nextV1_cases {κ : Type} [DecidableEq κ] (digest : Bytes → κ)
    (s : Store κ) (r : Req) (o : Outcome) :
    nextV1 digest s r o = s ∨
    (mapLookup s
        (get_file_hash digest r.file_data r.evaluation_mode r.custom_criteria) = none ∧
     ∃ ev : String, nextV1 digest s r o =
       mapStore s (get_file_hash digest r.file_data r.evaluation_mode r.custom_criteria)
         (entryV1 ev r.filename r.evaluation_mode)) := by
  cases hm : mapLookup s
      (get_file_hash digest r.file_data r.evaluation_mode r.custom_criteria) with
  | some e => exact Or.inl (by simp [nextV1, evaluateV1, hm])
  | none =>
    cases o with
    | exn => exact Or.inl (by simp [nextV1, evaluateV1, hm])
    | ok t => exact Or.inr ⟨rfl, t, by simp [nextV1, evaluateV1, hm]⟩

/-- Characterization of a version 2 evaluate step: the store is unchanged, or
exactly one version 2 entry is inserted under the computed key. -/
theorem nextV2_cases {κ : Type} [DecidableEq κ] (digest : Bytes → κ)
    (parse : String → Option EvalData) (mkpdf : Bytes → EvalData → Bytes → Bytes)
    (s : Store κ) (r : Req) (o : Outcome) :
    nextV2 digest parse mkpdf s r o = s ∨
    (mapLookup s
        (get_file_hash_v2 digest r.file_data r.evaluation_mode r.custom_criteria) = none ∧
     ∃ mp : Bytes, nextV2 digest parse mkpdf s r o =
       mapStore s (get_file_hash_v2 digest r.file_data r.evaluation_mode r.custom_criteria)
         (entryV2 mp r.filename)) := by
  cases hm : mapLookup s
      (get_file_hash_v2 digest r.file_data r.evaluation_mode r.custom_criteria) with
  | some e => exact Or.inl (by simp [nextV2, evaluateV2, hm])
  | none =>
    cases o with
    | exn => exact Or.inl (by simp [nextV2, evaluateV2, hm])
    | ok t =>
      cases hp : parse t with
      | none => exact Or.inl (by simp [nextV2, evaluateV2, hm, hp])
      | some ed =>
        exact Or.inr ⟨rfl, mkpdf r.file_data ed r.evaluation_mode,
          by simp [nextV2, evaluateV2, hm, hp]⟩

/-- Characterization of a version 3 evaluate step: the store is unchanged, or
exactly one version 3 entry is inserted under the computed key. -/
theorem nextV3_cases {κ : Type} [DecidableEq κ] (digest : Bytes → κ)
    (parse : String → Option EvalData) (mkpdf : Bytes → EvalData → Bytes → Bytes)
    (s : Store κ) (r : Req) (o : Outcome) :
    nextV3 digest parse mkpdf s r o = s ∨
    (mapLookup s
        (get_file_hash_v3 digest r.file_data r.evaluation_mode r.custom_criteria) = none ∧
     ∃ (mp : Bytes) (ed : EvalData), nextV3 digest parse mkpdf s r o =
       mapStore s (get_file_hash_v3 digest r.file_data r.evaluation_mode r.custom_criteria)
         (entryV3 mp r.filename ed)) := by
  cases hm : mapLookup s
      (get_file_hash_v3 digest r.file_data r.evaluation_mode r.custom_criteria) with
  | some e => exact Or.inl (by simp [nextV3, evaluateV3, hm])
  | none =>
    cases o with
    | exn => exact Or.inl (by simp [nextV3, evaluateV3, hm])
    | ok t =>
      cases hp : parse t with
      | none => exact Or.inl (by simp [nextV3, evaluateV3, hm, hp])
      | some ed =>
        exact Or.inr ⟨rfl, mkpdf r.file_data ed r.evaluation_mode, ed,
          by simp [nextV3, evaluateV3, hm, hp]⟩

/-- A binding present before any evaluate step of any version is still present
and unchanged after the step (entries are never mutated or dropped except by
full clear). -/
theorem mapLookup_next_preserved {κ : Type} [DecidableEq κ] (digest : Bytes → κ)
    (parse : String → Option EvalData) (mkpdf : Bytes → EvalData → Bytes → Bytes)
    (s : Store κ) (r : Req) (o : Outcome) (k : κ) (e : Entry)
    (h : mapLookup s k = some e) :
    mapLookup (nextV1 digest s r o) k = some e ∧
    mapLookup (nextV2 digest parse mkpdf s r o) k = some e ∧
    mapLookup (nextV3 digest parse mkpdf s r o) k = some e := by
  refine ⟨?_, ?_, ?_⟩
  · rcases nextV1_cases digest s r o with hc | ⟨hm, ev0, hc⟩
    · rw [hc]; exact h
    · rw [hc, mapLookup_mapStore_ne]
      · exact h
      · intro hk; rw [hk] at h; rw [h] at hm; exact Option.noConfusion hm
  · rcases nextV2_cases digest parse mkpdf s r o with hc | ⟨hm, mp, hc⟩
    · rw [hc]; exact h
    · rw [hc, mapLookup_mapStore_ne]
      · exact h
      · intro hk; rw [hk] at h; rw [h] at hm; exact Option.noConfusion hm
  · rcases nextV3_cases digest parse mkpdf s r o with hc | ⟨hm, mp, ed, hc⟩
    · rw [hc]; exact h
    · rw [hc, mapLookup_mapStore_ne]
      · exact h
      · intro hk; rw [hk] at h; rw [h] at hm; exact Option.noConfusion hm

/-- C7 counterexample: in version 2 the evaluate handler, on a miss with a
successfully parsed response, places in the store an entry that carries no
mode identifier: the stored entry has `marked_pdf` and `filename` fields but
its `mode_used` field is absent. -/
theorem stored_entry_without_mode :
    mapLookup (evaluateV2 (fun b : Bytes => b) (fun _ => some []) (fun d _ _ => d)
        [] ⟨[1], [2], [3], "a.pdf"⟩ (Outcome.ok "t")).cacheAfter [1, 2, 3]
      = some (entryV2 [1] "a.pdf") ∧
    mapLookup (entryV2 [1] "a.pdf") "mode_used" = none :=
  ⟨rfl, rfl⟩

/-- C7 amended: every entry in every reachable version 1 store holds the
grading result payload, the filename and the mode identifier; every entry in
every reachable version 2 (respectively 3) store holds the result payload
(the marked PDF) and the filename (and in version 3 the parsed evaluation
data) but no mode identifier is required there; and in all versions an entry,
once written, is never mutated by any evaluate step. -/
theorem cache_entry_fields_and_immutability {κ : Type} [DecidableEq κ]
    (digest : Bytes → κ) (parse : String → Option EvalData)
    (mkpdf : Bytes → EvalData → Bytes → Bytes) :
    (∀ s : Store κ, ReachableStore (nextV1 digest) s → ∀ (k : κ) (e : Entry),
      mapLookup s k = some e →
      (mapLookup e "evaluation").isSome = true ∧
      (mapLookup e "filename").isSome = true ∧
      (mapLookup e "mode_used").isSome = true) ∧
    (∀ s : Store κ, ReachableStore (nextV2 digest parse mkpdf) s → ∀ (k : κ) (e : Entry),
      mapLookup s k = some e →
      (mapLookup e "marked_pdf").isSome = true ∧
      (mapLookup e "filename").isSome = true) ∧
    (∀ s : Store κ, ReachableStore (nextV3 digest parse mkpdf) s → ∀ (k : κ) (e : Entry),
      mapLookup s k = some e →
      (mapLookup e "marked_pdf").isSome = true ∧
      (mapLookup e "filename").isSome = true ∧
      (mapLookup e "eval_data").isSome = true) ∧
    (∀ (s : Store κ) (r : Req) (o : Outcome) (k : κ) (e : Entry),
      mapLookup s k = some e →
      mapLookup (nextV1 digest s r o) k = some e ∧
      mapLookup (nextV2 digest parse mkpdf s r o) k = some e ∧
      mapLookup (nextV3 digest parse mkpdf s r o) k = some e) := by
  refine ⟨?_, ?_, ?_, fun s r o k e h => mapLookup_next_preserved digest parse mkpdf s r o k e h⟩
  · intro s hs
    induction hs with
    | init => intro k e h; exact Option.noConfusion h
    | cleared _ _ => intro k e h; exact Option.noConfusion h
    | ev r o hs ih =>
      intro k e h
      rcases nextV1_cases digest _ r o with hc | ⟨hm, ev0, hc⟩
      · rw [hc] at h; exact ih k e h
      · rw [hc] at h
        rcases mapLookup_mapStore_or _ _ _ _ _ h with ⟨hk, he⟩ | hOld
        · subst he; exact ⟨rfl, rfl, rfl⟩
        · exact ih k e hOld
  · intro s hs
    induction hs with
    | init => intro k e h; exact Option.noConfusion h
    | cleared _ _ => intro k e h; exact Option.noConfusion h
    | ev r o hs ih =>
      intro k e h
      rcases nextV2_cases digest parse mkpdf _ r o with hc | ⟨hm, mp, hc⟩
      · rw [hc] at h; exact ih k e h
      · rw [hc] at h
        rcases mapLookup_mapStore_or _ _ _ _ _ h with ⟨hk, he⟩ | hOld
        · subst he; exact ⟨rfl, rfl⟩
        · exact ih k e hOld
  · intro s hs
    induction hs with
    | init => intro k e h; exact Option.noConfusion h
    | cleared _ _ => intro k e h; exact Option.noConfusion h
    | ev r o hs ih =>
      intro k e h
      rcases nextV3_cases digest parse mkpdf _ r o with hc | ⟨hm, mp, ed, hc⟩
      · rw [hc] at h; exact ih k e h
      · rw [hc] at h
        rcases mapLookup_mapStore_or _ _ _ _ _ h with ⟨hk, he⟩ | hOld
        · subst he; exact ⟨rfl, rfl, rfl⟩
        · exact ih k e hOld

/-- C7 witness: a concrete reachable version 1 store (empty store, then one
successful evaluation) whose single entry holds all three fields, and the
entry survives a further step unchanged. -/
theorem cache_entry_fields_and_immutability_witness :
    ((mapLookup (entryV1 "R" "a.pdf" [2]) "evaluation").isSome = true ∧
     (mapLookup (entryV1 "R" "a.pdf" [2]) "filename").isSome = true ∧
     (mapLookup (entryV1 "R" "a.pdf" [2]) "mode_used").isSome = true) ∧
    mapLookup (nextV1 (fun b : Bytes => b)
        (nextV1 (fun b : Bytes => b) [] ⟨[1], [2], [3], "a.pdf"⟩ (Outcome.ok "R"))
        ⟨[9], [9], [9], "b.pdf"⟩ Outcome.exn) [1, 2, 3]
      = some (entryV1 "R" "a.pdf" [2]) :=
  ⟨(cache_entry_fields_and_immutability (fun b : Bytes => b) (fun _ => some [])
        (fun d _ _ => d)).1
      (nextV1 (fun b : Bytes => b) [] ⟨[1], [2], [3], "a.pdf"⟩ (Outcome.ok "R"))
      (ReachableStore.ev _ _ ReachableStore.init)
      [1, 2, 3] (entryV1 "R" "a.pdf" [2]) rfl,
   ((cache_entry_fields_and_immutability (fun b : Bytes => b) (fun _ => some [])
        (fun d _ _ => d)).2.2.2
      (nextV1 (fun b : Bytes => b) [] ⟨[1], [2], [3], "a.pdf"⟩ (Outcome.ok "R"))
      ⟨[9], [9], [9], "b.pdf"⟩ Outcome.exn
      [1, 2, 3] (entryV1 "R" "a.pdf" [2]) rfl).1⟩

end OCRCache
